import Mathlib

/-!
# Typed transaction envelopes: a shallow embedding

This file embeds `src/ethers-core/src/types/typed_transaction.rs` in Lean:
the `TransactionEnvelope` tagged union over legacy and EIP-2930 transaction
shapes, their RLP encodings (`rlp`, `rlp_signed`), the envelope signing hash
`sighash` (keccak-256 over a type-prefixed preimage), and the textual
(object) form with its `"type"` discriminator.

Byte strings are `List Nat` (each element intended to be `< 256`); 32-byte
digests likewise. Collaborators defined outside the source tree
(the RLP codec, `TransactionRequest` and its base-field writer, `Signature`,
keccak-256) are modelled from the specification, as noted on each
definition.
-/

namespace Ethers

/-! ## RLP items and the canonical RLP encoder

Modelled from the spec (§4.1): the core consumes a standard RLP codec over
byte strings, minimal big-endian non-negative integers (zero is the empty
string) and ordered lists, with minimal length prefixes. -/

/-- A logical RLP input: a byte string or an ordered list of items. -/
inductive RlpItem where
  | str : List Nat → RlpItem
  | list : List RlpItem → RlpItem
deriving Repr

/-- Minimal big-endian byte string of a natural number; `0` encodes as the
empty string. -/
def beBytes (n : Nat) : List Nat :=
  if h : n = 0 then [] else beBytes (n / 256) ++ [n % 256]
termination_by n
decreasing_by exact Nat.div_lt_self (Nat.pos_of_ne_zero h) (by norm_num)

/-- RLP length header: a single byte `base + len` for payloads of at most 55
bytes, otherwise `base + 55 + lenlen` followed by the big-endian length. -/
def rlpLenHeader (base len : Nat) : List Nat :=
  if len ≤ 55 then [base + len]
  else (base + 55 + (beBytes len).length) :: beBytes len

mutual

/-- Canonical RLP encoding of an item: a single byte below `0x80` stands for
itself; other strings get a `0x80`-based header; lists get a `0xc0`-based
header over the concatenated payload. -/
def rlpEncode : RlpItem → List Nat
  | .str bs =>
      if bs.length = 1 ∧ bs.headD 0 < 0x80 then bs
      else rlpLenHeader 0x80 bs.length ++ bs
  | .list items =>
      let payload := rlpEncodeAll items
      rlpLenHeader 0xc0 payload.length ++ payload

/-- Concatenated RLP encodings of a sequence of items (a list's payload). -/
def rlpEncodeAll : List RlpItem → List Nat
  | [] => []
  | it :: rest => rlpEncode it ++ rlpEncodeAll rest

end

/-! ## RLP stream

Modelled from the spec (§4.1): the sink collects appended items after a
`begin_list(n)` declaring the expected item count; `out` produces the final
byte string.  The underlying `rlp` crate panics on `out()` when the number
of appended items differs from the declared count; the model returns the
empty string in that (never exercised) case. -/

/-- An in-progress RLP list encoding: the declared item count from
`begin_list` and the items appended so far. -/
structure RlpStream where
  declaredLen : Nat
  items : List RlpItem
deriving Repr

/-- `RlpStream::new()`: an empty stream. -/
def RlpStream.new : RlpStream := ⟨0, []⟩

/-- `begin_list(n)`: declare the item count of the list being encoded. -/
def RlpStream.begin_list (s : RlpStream) (n : Nat) : RlpStream :=
  { s with declaredLen := n }

/-- `append(x)`: append one item to the stream. -/
def RlpStream.append (s : RlpStream) (it : RlpItem) : RlpStream :=
  { s with items := s.items ++ [it] }

/-- `out()`: the encoded list.  Defined (as the empty string) when the
appended item count misses the declared one, where the real stream panics. -/
def RlpStream.out (s : RlpStream) : List Nat :=
  if s.items.length = s.declaredLen then rlpEncode (.list s.items) else []

/-! ## Transaction data model -/

/-- Modelled from the spec: `TransactionRequest` (`LegacyTx`, §3) lives in
`src/ethers-core/src/types/transaction.rs`, outside this source tree.  Its
encoding-relevant fields are `nonce`, `gas_price`, `gas_limit`, `to`
(optional 20-byte address), `value` and the opaque byte string `data`; the
signing-stub slots `v`, `r`, `s` are appended by the caller, not stored. -/
structure TransactionRequest where
  nonce : Nat
  gas_price : Nat
  gas_limit : Nat
  «to» : Option (List Nat)
  value : Nat
  data : List Nat
deriving Repr, DecidableEq

/-- Modelled from the spec (§4.3): `NUM_TX_FIELDS = 9`, declared in
`src/ethers-core/src/types/transaction.rs`, outside this source tree. -/
def NUM_TX_FIELDS : Nat := 9

/-- `NUM_EIP2930_FIELDS = NUM_TX_FIELDS + 1`. -/
def NUM_EIP2930_FIELDS : Nat := NUM_TX_FIELDS + 1

/-- The byte string written for the `to` slot: the address bytes, or the
empty string when absent (§4.3). -/
def toFieldBytes (o : Option (List Nat)) : List Nat := o.getD []

/-- Modelled from the spec (§4.3 and the canonical preimage of §4.4):
`TransactionRequest::rlp_base` appends the six body fields `nonce`,
`gas_price`, `gas_limit`, `to`, `value`, `data` in order; the trailing
signature(-stub) slots are appended by the calling shape. -/
def TransactionRequest.rlp_base (t : TransactionRequest) (s : RlpStream) : RlpStream :=
  (((((s.append (.str (beBytes t.nonce))).append
      (.str (beBytes t.gas_price))).append
      (.str (beBytes t.gas_limit))).append
      (.str (toFieldBytes t.«to»))).append
      (.str (beBytes t.value))).append
      (.str t.data)

/-- Modelled from the spec (§3, §4.3): `TransactionRequest::rlp(chain_id)`
encodes the legacy signing preimage: a list of `NUM_TX_FIELDS` items — the
six base fields, then the chain id and two zero stubs in the `v`, `r`, `s`
slots. -/
def TransactionRequest.rlp (t : TransactionRequest) (chainId : Nat) : List Nat :=
  ((((t.rlp_base (RlpStream.new.begin_list NUM_TX_FIELDS)).append
      (.str (beBytes chainId))).append
      (.str (beBytes 0))).append
      (.str (beBytes 0))).out

/-- Access list item: an address and its accessed storage keys (20- and
32-byte strings respectively). -/
structure AccessListItem where
  address : List Nat
  storage_keys : List (List Nat)
deriving Repr, DecidableEq

/-- The item's derived `RlpEncodable` encoding: `begin_list(2)`, `append`
of the address, `append_list` of the storage keys — the two-slot list
`[address, [storage_key_0, …]]`. -/
def AccessListItem.toRlpItem (it : AccessListItem) : RlpItem :=
  .list [.str it.address, .list (it.storage_keys.map RlpItem.str)]

/-- Access list: an ordered sequence of items. -/
structure AccessList where
  items : List AccessListItem
deriving Repr, DecidableEq

/-- The access list's derived `RlpEncodable` encoding.  The derive treats
the single `Vec` field as one slot: `begin_list(1)` followed by
`append_list` of the items, i.e. a one-element list wrapping the item
list (so it is NOT the item list itself, as `RlpEncodableWrapper` would
produce). -/
def AccessList.toRlpItem (al : AccessList) : RlpItem :=
  .list [.list (al.items.map AccessListItem.toRlpItem)]

/-- Modelled from the spec (§6): the `Signature` record `{v, r, s}` whose
fields encode as canonical RLP integers. -/
structure Signature where
  v : Nat
  r : Nat
  s : Nat
deriving Repr, DecidableEq

/-- An EIP-2930 transaction: a legacy transaction body plus an access list. -/
structure Eip2930TransactionRequest where
  tx : TransactionRequest
  access_list : AccessList
deriving Repr, DecidableEq

/-- The stream built by `Eip2930TransactionRequest::rlp` before `out()`:
`begin_list(NUM_EIP2930_FIELDS)`, the six base fields, the access list,
then the chain id and two zero stubs. -/
def Eip2930TransactionRequest.rlpStream (t : Eip2930TransactionRequest)
    (chainId : Nat) : RlpStream :=
  ((((t.tx.rlp_base (RlpStream.new.begin_list NUM_EIP2930_FIELDS)).append
      t.access_list.toRlpItem).append
      (.str (beBytes chainId))).append
      (.str (beBytes 0))).append
      (.str (beBytes 0))

/-- `Eip2930TransactionRequest::rlp(chain_id)`: the for-signing encoding. -/
def Eip2930TransactionRequest.rlp (t : Eip2930TransactionRequest)
    (chainId : Nat) : List Nat :=
  (t.rlpStream chainId).out

/-- The stream built by `Eip2930TransactionRequest::rlp_signed` before
`out()`: `begin_list(NUM_EIP2930_FIELDS)`, the six base fields, the access
list, then the signature's `v`, `r`, `s`. -/
def Eip2930TransactionRequest.rlpSignedStream (t : Eip2930TransactionRequest)
    (sig : Signature) : RlpStream :=
  ((((t.tx.rlp_base (RlpStream.new.begin_list NUM_EIP2930_FIELDS)).append
      t.access_list.toRlpItem).append
      (.str (beBytes sig.v))).append
      (.str (beBytes sig.r))).append
      (.str (beBytes sig.s))

/-- `Eip2930TransactionRequest::rlp_signed(signature)`: the with-signature
encoding. -/
def Eip2930TransactionRequest.rlp_signed (t : Eip2930TransactionRequest)
    (sig : Signature) : List Nat :=
  (t.rlpSignedStream sig).out

/-! ## Keccak-256

Modelled from the spec (§6): the keccak-256 digest collaborator, in its
standard definition — the Keccak sponge over the 1600-bit permutation with
rate 136 bytes, multi-rate padding with domain byte `0x01` (the original
Keccak padding used for transaction digests, not the SHA-3 `0x06` variant),
and a 32-byte output.  The state is a list of 25 lanes, the lane at
index `x + 5 * y` being a 64-bit word represented as a `Nat` below
`2 ^ 64`. -/

/-- One step of the degree-8 LFSR `x^8 + x^6 + x^5 + x^4 + 1` generating
the round-constant bits. -/
def rcNext (r : Nat) : Nat := (Nat.xor (r <<< 1) ((r >>> 7) * 0x71)) % 256

/-- The LFSR register after `t` steps from its initial value 1. -/
def rcReg (t : Nat) : Nat := (List.range t).foldl (fun r _ => rcNext r) 1

/-- The round-constant bit `rc(t)`. -/
def rcBit (t : Nat) : Nat := rcReg t % 2

/-- Round constant of round `i`: bit `rc(7i + j)` lands at word position
`2 ^ j - 1` for `j = 0, …, 6`. -/
def keccakRCAt (i : Nat) : Nat :=
  (List.range 7).foldl (fun acc j => acc + rcBit (7 * i + j) * 2 ^ (2 ^ j - 1)) 0

/-- The 24 Keccak-f[1600] round constants. -/
def keccakRC : List Nat := (List.range 24).map keccakRCAt

/-- The ρ rotation offsets as (lane index, offset) pairs: offset
`(t + 1)(t + 2) / 2 mod 64` at the `t`-th lane of the π orbit that starts
at `(x, y) = (1, 0)` and steps to `(y, (2x + 3y) mod 5)`. -/
def rhoPairs : List (Nat × Nat) :=
  ((List.range 24).foldl
    (fun st t =>
      let x := st.2.1
      let y := st.2.2
      ((x + 5 * y, (t + 1) * (t + 2) / 2 % 64) :: st.1, y, (2 * x + 3 * y) % 5))
    ([], 1, 0)).1

/-- Rotation offsets of the ρ step, indexed by lane index `x + 5 * y`
(lane (0, 0) keeps offset 0). -/
def keccakRho : List Nat :=
  (List.range 25).map
    (fun i => ((rhoPairs.find? (fun p => p.1 = i)).map Prod.snd).getD 0)

/-- 64-bit left rotation on `Nat` words below `2 ^ 64`. -/
def rotl64 (x n : Nat) : Nat :=
  ((x <<< n) % 2 ^ 64) ||| (x >>> (64 - n))

/-- The lane at index `i` of a state. -/
def kIdx (st : List Nat) (i : Nat) : Nat := st.getD i 0

/-- θ step: xor every lane with the parity of two neighbouring columns. -/
def keccakTheta (A : List Nat) : List Nat :=
  let C := (List.range 5).map (fun x => (kIdx A x).xor ((kIdx A (x + 5)).xor
    ((kIdx A (x + 10)).xor ((kIdx A (x + 15)).xor (kIdx A (x + 20))))))
  let D := (List.range 5).map (fun x =>
    (C.getD ((x + 4) % 5) 0).xor (rotl64 (C.getD ((x + 1) % 5) 0) 1))
  (List.range 25).map (fun i => (kIdx A i).xor (D.getD (i % 5) 0))

/-- ρ and π steps: rotate each lane and permute lane positions,
`B[y, 2x + 3y] = rotl(A[x, y], ρ[x, y])`; the lane of `B` at
`(x', y')` therefore comes from `(x, y) = ((x' + 3y') mod 5, x')`. -/
def keccakRhoPi (A : List Nat) : List Nat :=
  (List.range 25).map (fun j =>
    let x := (j % 5 + 3 * (j / 5)) % 5
    let t := x + 5 * (j % 5)
    rotl64 (kIdx A t) (keccakRho.getD t 0))

/-- χ step: `A[x, y] = B[x, y] xor ((not B[x+1, y]) and B[x+2, y])`. -/
def keccakChi (B : List Nat) : List Nat :=
  (List.range 25).map (fun i =>
    let x := i % 5
    let y := i / 5
    (B.getD i 0).xor (Nat.land ((kIdx B ((x + 1) % 5 + 5 * y)).xor (2 ^ 64 - 1))
      (kIdx B ((x + 2) % 5 + 5 * y))))

/-- ι step: xor the round constant into lane (0, 0). -/
def keccakIota (A : List Nat) (rc : Nat) : List Nat :=
  (List.range 25).map (fun i => if i = 0 then (kIdx A 0).xor rc else kIdx A i)

/-- One Keccak-f round. -/
def keccakRound (A : List Nat) (rc : Nat) : List Nat :=
  keccakIota (keccakChi (keccakRhoPi (keccakTheta A))) rc

/-- The Keccak-f[1600] permutation: 24 rounds. -/
def keccakF (A : List Nat) : List Nat :=
  keccakRC.foldl keccakRound A

/-- Little-endian word value of a byte string. -/
def leWord (bs : List Nat) : Nat :=
  bs.foldr (fun b acc => b + 256 * acc) 0

/-- Xor a 136-byte rate block into the first 17 lanes of the state. -/
def keccakXorBlock (st : List Nat) (block : List Nat) : List Nat :=
  (List.range 25).map (fun i =>
    if i < 17 then (kIdx st i).xor (leWord ((block.drop (8 * i)).take 8))
    else kIdx st i)

/-- Multi-rate padding `pad10*1` with domain byte `0x01` at rate 136. -/
def keccakPad (msg : List Nat) : List Nat :=
  let q := 136 - msg.length % 136
  if q = 1 then msg ++ [0x81]
  else msg ++ 0x01 :: (List.replicate (q - 2) 0 ++ [0x80])

/-- Absorb a padded message block by block. -/
def keccakAbsorb (st : List Nat) (msg : List Nat) : List Nat :=
  if msg.length = 0 then st
  else keccakAbsorb (keccakF (keccakXorBlock st (msg.take 136))) (msg.drop 136)
termination_by msg.length
decreasing_by simp [List.length_drop]; omega

/-- Squeeze the 32-byte digest out of the first four lanes. -/
def keccakSqueeze (st : List Nat) : List Nat :=
  (List.range 32).map (fun i => (kIdx st (i / 8) >>> (8 * (i % 8))) % 256)

/-- keccak-256 of a byte string: a 32-byte digest. -/
def keccak256 (msg : List Nat) : List Nat :=
  keccakSqueeze (keccakAbsorb (List.replicate 25 0) (keccakPad msg))

/-! ## The transaction envelope and its signing hash -/

/-- The tagged union over the two transaction shapes. -/
inductive TransactionEnvelope where
  | Legacy : TransactionRequest → TransactionEnvelope
  | Eip2930 : Eip2930TransactionRequest → TransactionEnvelope
deriving Repr, DecidableEq

/-- `TransactionEnvelope::sighash(chain_id)`: keccak-256 of the shape's
for-signing encoding prefixed with the discriminator byte `0x00` (Legacy)
or `0x01` (Eip2930). -/
def TransactionEnvelope.sighash (e : TransactionEnvelope) (chainId : Nat) : List Nat :=
  keccak256 (match e with
    | .Legacy tx => 0 :: tx.rlp chainId
    | .Eip2930 tx => 1 :: tx.rlp chainId)

/-! ## Textual (object) form

The envelope serializes to an object with the discriminator field
`"type"` (`"0x00"` / `"0x01"`) and the inner shape's fields flattened into
the same object; the access list appears under the `"access_list"` key
only in the `0x01` variant, and access-list items use the outward key
names `address` / `storageKeys` (§4.6).  The spec leaves the textual
rendering of scalars to the legacy collaborator; the model renders a
number as a number and a byte string as the array of its byte values,
which preserves exactly the object structure and dispatch the claims are
about. -/

/-- A textual (object-notation) value. -/
inductive JsonValue where
  | str : String → JsonValue
  | num : Nat → JsonValue
  | arr : List JsonValue → JsonValue
  | obj : List (String × JsonValue) → JsonValue
  | null : JsonValue
deriving Repr

/-- The value under the first occurrence of a key in an object. -/
def jLookup (k : String) : List (String × JsonValue) → Option JsonValue
  | [] => none
  | (k', v) :: rest => if k' = k then some v else jLookup k rest

/-- A byte string rendered as the array of its byte values. -/
def bytesToJson (bs : List Nat) : JsonValue := .arr (bs.map JsonValue.num)

/-- Read back a list of numbers (a rendered byte string's elements). -/
def jsonNums : List JsonValue → Option (List Nat)
  | [] => some []
  | .num n :: rest => (jsonNums rest).map (n :: ·)
  | _ :: _ => none

/-- Read back a byte string. -/
def jsonToBytes : JsonValue → Option (List Nat)
  | .arr l => jsonNums l
  | _ => none

/-- Read back an optional byte string (`null` means absent). -/
def jsonToOptBytes : JsonValue → Option (Option (List Nat))
  | .null => some none
  | j => (jsonToBytes j).map some

/-- Read back a list of byte strings (the storage keys). -/
def jsonBytesList : List JsonValue → Option (List (List Nat))
  | [] => some []
  | j :: rest =>
    match jsonToBytes j with
    | some bs => (jsonBytesList rest).map (bs :: ·)
    | none => none

/-- Textual form of an access-list item: `{address, storageKeys}`. -/
def AccessListItem.toJson (it : AccessListItem) : JsonValue :=
  .obj [("address", bytesToJson it.address),
        ("storageKeys", .arr (it.storage_keys.map bytesToJson))]

/-- Parse an access-list item. -/
def AccessListItem.fromJson : JsonValue → Option AccessListItem
  | .obj o =>
    match jLookup "address" o, jLookup "storageKeys" o with
    | some aj, some (.arr kj) =>
      match jsonToBytes aj, jsonBytesList kj with
      | some a, some ks => some ⟨a, ks⟩
      | _, _ => none
    | _, _ => none
  | _ => none

/-- Parse a sequence of access-list items. -/
def jsonItems : List JsonValue → Option (List AccessListItem)
  | [] => some []
  | j :: rest =>
    match AccessListItem.fromJson j with
    | some it => (jsonItems rest).map (it :: ·)
    | none => none

/-- Textual form of an access list: the array of its items. -/
def AccessList.toJson (al : AccessList) : JsonValue :=
  .arr (al.items.map AccessListItem.toJson)

/-- Parse an access list. -/
def AccessList.fromJson : JsonValue → Option AccessList
  | .arr l => (jsonItems l).map AccessList.mk
  | _ => none

/-- Textual fields of a legacy transaction (camel-cased outward names,
`null` for an absent `to`). -/
def TransactionRequest.toJson (t : TransactionRequest) : List (String × JsonValue) :=
  [("nonce", .num t.nonce),
   ("gasPrice", .num t.gas_price),
   ("gasLimit", .num t.gas_limit),
   ("to", match t.«to» with | some a => bytesToJson a | none => .null),
   ("value", .num t.value),
   ("data", bytesToJson t.data)]

/-- Parse a legacy transaction from an object's fields, ignoring unknown
keys (such as the envelope's `type` tag or an `access_list` field). -/
def TransactionRequest.fromJson (o : List (String × JsonValue)) :
    Option TransactionRequest :=
  match jLookup "nonce" o, jLookup "gasPrice" o, jLookup "gasLimit" o,
      jLookup "to" o, jLookup "value" o, jLookup "data" o with
  | some (.num n), some (.num gp), some (.num gl), some toJ,
      some (.num v), some dJ =>
    match jsonToOptBytes toJ, jsonToBytes dJ with
    | some toV, some d => some ⟨n, gp, gl, toV, v, d⟩
    | _, _ => none
  | _, _, _, _, _, _ => none

/-- Textual fields of an EIP-2930 transaction: the flattened legacy fields
plus the `access_list` field. -/
def Eip2930TransactionRequest.toJson (t : Eip2930TransactionRequest) :
    List (String × JsonValue) :=
  t.tx.toJson ++ [("access_list", t.access_list.toJson)]

/-- Parse an EIP-2930 transaction from an object's fields. -/
def Eip2930TransactionRequest.fromJson (o : List (String × JsonValue)) :
    Option Eip2930TransactionRequest :=
  match TransactionRequest.fromJson o, jLookup "access_list" o with
  | some tx, some alJ => (AccessList.fromJson alJ).map (Eip2930TransactionRequest.mk tx)
  | _, _ => none

/-- Textual form of an envelope: the `type` tag followed by the inner
shape's flattened fields. -/
def TransactionEnvelope.toJson : TransactionEnvelope → List (String × JsonValue)
  | .Legacy tx => ("type", .str "0x00") :: tx.toJson
  | .Eip2930 t => ("type", .str "0x01") :: t.toJson

/-- Errors at the textual-form boundary (§7). -/
inductive DecodeError where
  | MalformedInput
  | UnknownTransactionType
  | MissingField
deriving Repr, DecidableEq

/-- Parse an envelope: dispatch on the `type` discriminator, then parse
the matching inner shape from the same object. -/
def TransactionEnvelope.fromJson (o : List (String × JsonValue)) :
    Except DecodeError TransactionEnvelope :=
  match jLookup "type" o with
  | some (.str s) =>
    if s = "0x00" then
      match TransactionRequest.fromJson o with
      | some tx => .ok (.Legacy tx)
      | none => .error .MissingField
    else if s = "0x01" then
      match Eip2930TransactionRequest.fromJson o with
      | some t => .ok (.Eip2930 t)
      | none => .error .MissingField
    else .error .UnknownTransactionType
  | some _ => .error .MalformedInput
  | none => .error .MissingField

/-! ## Helper lemmas -/

/-- A keccak-256 digest has 32 bytes. -/
theorem keccak256_length (msg : List Nat) : (keccak256 msg).length = 32 := by
  simp [keccak256, keccakSqueeze]

/-- Reading back a rendered byte string's elements. -/
theorem jsonNums_map (bs : List Nat) : jsonNums (bs.map JsonValue.num) = some bs := by
  induction bs with
  | nil => rfl
  | cons b rest ih => simp [jsonNums, ih]

/-- Byte-string rendering round-trips. -/
theorem jsonToBytes_bytesToJson (bs : List Nat) :
    jsonToBytes (bytesToJson bs) = some bs := by
  simp [jsonToBytes, bytesToJson, jsonNums_map]

/-- Present optional byte strings round-trip. -/
theorem jsonToOptBytes_bytesToJson (bs : List Nat) :
    jsonToOptBytes (bytesToJson bs) = some (some bs) := by
  simp [jsonToOptBytes, bytesToJson, jsonToBytes, jsonNums_map]

/-- An absent optional byte string reads back as `none`. -/
theorem jsonToOptBytes_null : jsonToOptBytes .null = some none := rfl

/-- Storage-key list rendering round-trips. -/
theorem jsonBytesList_map (ks : List (List Nat)) :
    jsonBytesList (ks.map bytesToJson) = some ks := by
  induction ks with
  | nil => rfl
  | cons k rest ih => simp [jsonBytesList, jsonToBytes_bytesToJson, ih]

/-- Access-list item rendering round-trips. -/
theorem accessListItem_fromJson_toJson (it : AccessListItem) :
    AccessListItem.fromJson it.toJson = some it := by
  rcases it with ⟨a, ks⟩
  simp [AccessListItem.fromJson, AccessListItem.toJson, jLookup,
    jsonToBytes_bytesToJson, jsonBytesList_map]

/-- Access-list item sequences round-trip. -/
theorem jsonItems_map (its : List AccessListItem) :
    jsonItems (its.map AccessListItem.toJson) = some its := by
  induction its with
  | nil => rfl
  | cons it rest ih => simp [jsonItems, accessListItem_fromJson_toJson, ih]

/-- Access-list rendering round-trips. -/
theorem accessList_fromJson_toJson (al : AccessList) :
    AccessList.fromJson (AccessList.toJson al) = some al := by
  rcases al with ⟨its⟩
  simp [AccessList.fromJson, AccessList.toJson, jsonItems_map]

/-- A legacy transaction parses back from its own fields behind any
envelope tag (the parser ignores the unknown `type` key). -/
theorem txRequest_fromJson_tagged (tag : JsonValue) (t : TransactionRequest) :
    TransactionRequest.fromJson (("type", tag) :: t.toJson) = some t := by
  rcases t with ⟨n, gp, gl, toV, v, d⟩
  cases toV <;>
    simp [TransactionRequest.fromJson, TransactionRequest.toJson, jLookup,
      jsonToOptBytes_bytesToJson, jsonToOptBytes_null, jsonToBytes_bytesToJson]

/-- An EIP-2930 transaction parses back from its own flattened fields
behind any envelope tag. -/
theorem eip2930_fromJson_tagged (tag : JsonValue)
    (t : Eip2930TransactionRequest) :
    Eip2930TransactionRequest.fromJson (("type", tag) :: t.toJson) = some t := by
  rcases t with ⟨⟨n, gp, gl, toV, v, d⟩, al⟩
  cases toV <;>
    simp [Eip2930TransactionRequest.fromJson, Eip2930TransactionRequest.toJson,
      TransactionRequest.fromJson, TransactionRequest.toJson, jLookup,
      accessList_fromJson_toJson,
      jsonToOptBytes_bytesToJson, jsonToOptBytes_null, jsonToBytes_bytesToJson]

/-! ## The claims -/

/-- C1: for every envelope and chain id, `sighash` is keccak-256 of a single
discriminator byte — `0x00` for `Legacy`, `0x01` for `Eip2930` — followed by
the inner shape's `rlp(chain_id)` encoding, and the digest has 32 bytes. -/
theorem claim_C1_sighash_prefix_digest (c : Nat) :
    (∀ tx : TransactionRequest,
      (TransactionEnvelope.Legacy tx).sighash c = keccak256 (0x00 :: tx.rlp c)) ∧
    (∀ t : Eip2930TransactionRequest,
      (TransactionEnvelope.Eip2930 t).sighash c = keccak256 (0x01 :: t.rlp c)) ∧
    (∀ e : TransactionEnvelope, (e.sighash c).length = 32) := by
  refine ⟨fun tx => rfl, fun t => rfl, fun e => ?_⟩
  cases e <;> exact keccak256_length _

/-- C2: for every EIP-2930 transaction and chain id, the for-signing
encoding `rlp(c)` is the RLP list whose items, in order, are the six legacy
base fields `nonce`, `gas_price`, `gas_limit`, `to`, `value`, `data`, then
the access list, the chain id, and two zero stubs. -/
theorem claim_C2_rlp_item_order (t : Eip2930TransactionRequest) (c : Nat) :
    t.rlp c = rlpEncode (.list
      [.str (beBytes t.tx.nonce), .str (beBytes t.tx.gas_price),
       .str (beBytes t.tx.gas_limit), .str (toFieldBytes t.tx.«to»),
       .str (beBytes t.tx.value), .str t.tx.data,
       t.access_list.toRlpItem,
       .str (beBytes c), .str (beBytes 0), .str (beBytes 0)]) := rfl

/-- C3: for every EIP-2930 transaction, signature and chain id, the last
three items of the with-signature stream are the canonical RLP integer
items of `v`, `r`, `s`, and the item counts of `rlp_signed(sig)` and
`rlp(c)` agree. -/
theorem claim_C3_rlp_signed_tail (t : Eip2930TransactionRequest)
    (sig : Signature) (c : Nat) :
    (t.rlpSignedStream sig).items.drop ((t.rlpSignedStream sig).items.length - 3) =
      [.str (beBytes sig.v), .str (beBytes sig.r), .str (beBytes sig.s)] ∧
    (t.rlpSignedStream sig).items.length = (t.rlpStream c).items.length :=
  ⟨rfl, rfl⟩

/-- C4: the code violates the claim that an empty access list occupies its
slot as the single byte `0xc0`.  The derived `RlpEncodable` wraps the item
list in a one-element list, so the slot of an empty access list encodes as
`[0xc1, 0xc0]`, evaluated here at a concrete transaction. -/
theorem claim_C4_empty_access_list_slot :
    ((Eip2930TransactionRequest.mk (TransactionRequest.mk 0 0 0 none 0 [])
        (AccessList.mk [])).rlpStream 1).items.getD 6 (.str []) =
      (AccessList.mk []).toRlpItem ∧
    rlpEncode (AccessList.mk []).toRlpItem = [0xc1, 0xc0] ∧
    rlpEncode (AccessList.mk []).toRlpItem ≠ [0xc0] :=
  ⟨rfl, by decide, by decide⟩

/-- C5 (counterexample): the claim that `begin_list` is passed 11 fails —
at a concrete transaction, both encoding streams declare
`NUM_EIP2930_FIELDS = 10`, not 11. -/
theorem claim_C5_counterexample :
    ¬ (((Eip2930TransactionRequest.mk (TransactionRequest.mk 0 0 0 none 0 [])
          (AccessList.mk [])).rlpStream 1).declaredLen = 11 ∨
       ((Eip2930TransactionRequest.mk (TransactionRequest.mk 0 0 0 none 0 [])
          (AccessList.mk [])).rlpSignedStream (Signature.mk 1 2 3)).declaredLen = 11) := by
  decide

/-- C5 (amended): in both EIP-2930 encoding operations the list length
passed to `begin_list` is `NUM_EIP2930_FIELDS = 10`, and it equals the
number of items actually appended to the stream. -/
theorem claim_C5_list_length (t : Eip2930TransactionRequest) (c : Nat)
    (sig : Signature) :
    NUM_EIP2930_FIELDS = 10 ∧
    (t.rlpStream c).declaredLen = NUM_EIP2930_FIELDS ∧
    (t.rlpStream c).items.length = NUM_EIP2930_FIELDS ∧
    (t.rlpSignedStream sig).declaredLen = NUM_EIP2930_FIELDS ∧
    (t.rlpSignedStream sig).items.length = NUM_EIP2930_FIELDS :=
  ⟨rfl, rfl, rfl, rfl, rfl⟩

/-- C6: decoding the textual form produced by encoding any envelope yields
the original envelope, and the `type` discriminator field is `"0x00"` for
`Legacy` and `"0x01"` for `Eip2930`. -/
theorem claim_C6_textual_round_trip (e : TransactionEnvelope) :
    TransactionEnvelope.fromJson (TransactionEnvelope.toJson e) = .ok e ∧
    jLookup "type" (TransactionEnvelope.toJson e) =
      some (.str (match e with | .Legacy _ => "0x00" | .Eip2930 _ => "0x01")) := by
  cases e with
  | Legacy tx =>
    simp [TransactionEnvelope.toJson, TransactionEnvelope.fromJson, jLookup,
      txRequest_fromJson_tagged]
  | Eip2930 t =>
    simp [TransactionEnvelope.toJson, TransactionEnvelope.fromJson, jLookup,
      eip2930_fromJson_tagged]

/-- C7: the textual form of a legacy envelope also parses as the raw legacy
transaction, and wrapping that parse in `Legacy` restores the envelope;
likewise the textual form of an access-list envelope parses as the raw
EIP-2930 shape and re-wrapping restores the envelope. -/
theorem claim_C7_dual_parse :
    (∀ tx : TransactionRequest,
      TransactionRequest.fromJson ((TransactionEnvelope.Legacy tx).toJson) = some tx ∧
      (TransactionRequest.fromJson ((TransactionEnvelope.Legacy tx).toJson)).map
        TransactionEnvelope.Legacy = some (TransactionEnvelope.Legacy tx)) ∧
    (∀ t : Eip2930TransactionRequest,
      Eip2930TransactionRequest.fromJson ((TransactionEnvelope.Eip2930 t).toJson) = some t ∧
      (Eip2930TransactionRequest.fromJson ((TransactionEnvelope.Eip2930 t).toJson)).map
        TransactionEnvelope.Eip2930 = some (TransactionEnvelope.Eip2930 t)) := by
  refine ⟨fun tx => ?_, fun t => ?_⟩
  · have h : TransactionRequest.fromJson ((TransactionEnvelope.Legacy tx).toJson) = some tx :=
      txRequest_fromJson_tagged _ tx
    exact ⟨h, by rw [h]; rfl⟩
  · have h : Eip2930TransactionRequest.fromJson
        ((TransactionEnvelope.Eip2930 t).toJson) = some t :=
      eip2930_fromJson_tagged _ t
    exact ⟨h, by rw [h]; rfl⟩

/-- C8: a textual document whose `type` discriminator is present but
neither `"0x00"` nor `"0x01"` decodes to the `UnknownTransactionType`
error, and no envelope value is produced. -/
theorem claim_C8_unknown_type (o : List (String × JsonValue)) (s : String)
    (h : jLookup "type" o = some (.str s)) (h0 : s ≠ "0x00") (h1 : s ≠ "0x01") :
    TransactionEnvelope.fromJson o = .error .UnknownTransactionType := by
  simp [TransactionEnvelope.fromJson, h, h0, h1]

/-- C8 witness: the concrete document `{type: "0x02"}` decodes to the
`UnknownTransactionType` error. -/
theorem claim_C8_witness :
    jLookup "type" [("type", JsonValue.str "0x02")] = some (JsonValue.str "0x02") ∧
    TransactionEnvelope.fromJson [("type", JsonValue.str "0x02")] =
      .error DecodeError.UnknownTransactionType :=
  ⟨rfl, claim_C8_unknown_type _ "0x02" rfl (by decide) (by decide)⟩

/-- C9: `sighash` is deterministic — two invocations on structurally equal
envelopes and equal chain ids return identical digests. -/
theorem claim_C9_sighash_deterministic (e₁ e₂ : TransactionEnvelope)
    (c₁ c₂ : Nat) (he : e₁ = e₂) (hc : c₁ = c₂) :
    e₁.sighash c₁ = e₂.sighash c₂ := by
  rw [he, hc]

/-- C9 witness: the determinism theorem applied at a concrete envelope and
chain id. -/
theorem claim_C9_witness :
    (TransactionEnvelope.Legacy (TransactionRequest.mk 0 0 0 none 0 [])).sighash 1 =
    (TransactionEnvelope.Legacy (TransactionRequest.mk 0 0 0 none 0 [])).sighash 1 :=
  claim_C9_sighash_deterministic _ _ _ _ rfl rfl

/-- C10: `rlp_signed(sig)` is a function of the transaction's fields, its
access list and the signature's `v`, `r`, `s` alone — the encoded list is
built from exactly those items, with no chain id and no zero stubs among
them. -/
theorem claim_C10_rlp_signed_chain_free (t : Eip2930TransactionRequest)
    (sig : Signature) :
    t.rlp_signed sig = rlpEncode (.list
      [.str (beBytes t.tx.nonce), .str (beBytes t.tx.gas_price),
       .str (beBytes t.tx.gas_limit), .str (toFieldBytes t.tx.«to»),
       .str (beBytes t.tx.value), .str t.tx.data,
       t.access_list.toRlpItem,
       .str (beBytes sig.v), .str (beBytes sig.r), .str (beBytes sig.s)]) := rfl

end Ethers
